import Mathlib

/-!
# Verification of the spider subscription plugin core

Shallow embedding of the plugin's core state and operations:

* `message_dedup.py` — the `MessageDeduplication` store (per-site
  `message_hash → timestamp` maps with a 7-day retention window),
* `scheduler.py` — site-module loading/validation (`_load_site_module`,
  `load_site_modules`), the display-name lookup table, the per-site update
  check (`check_site_updates`) and the notification fan-out
  (`_send_notifications`),
* `cache.py` — per-site JSON cache (`save_cache` / `load_cache`),
* `sites/__init__.py` — the shipped `SiteConfig` class, and the bundled
  example site's construction call (`sites/example/main.py`).

Modelling conventions:

* Python `dict`s (string-keyed, insertion ordered) are association lists with
  unique keys; `alookup` is `d[k]` / `k in d`, `dictSet` is `d[k] = v`
  (replace the existing key in place, otherwise append).
* Timestamps (`time.time()` floats) are modelled as integers; every threshold
  the code compares against (`7 * 24 * 60 * 60` seconds) is integral, so no
  claim depends on fractional times.
* The MD5 content hash (`hashlib.md5(...).hexdigest()`, an external library
  call) is an abstract parameter `hash : String → String` of the dedup
  operations.
* The filesystem behind `cache.py` is an in-memory map from site name to the
  stored JSON document; the `json.dump`/`json.load` round trip of the Python
  standard library is treated as the identity on the document, and the
  exception branches (I/O failure → `False` / `None`) are not taken in the
  model.
* External effects (the transport send, which may raise) are parameters:
  `send_ok s = false` models `StarTools.send_message` raising for
  subscriber `s`; the surrounding `try/except` is part of the embedding.
-/

namespace Spider

/-- `d[k]` lookup on a Python dict modelled as an association list
(first match; dicts hold each key at most once). -/
def alookup {α : Type} : List (String × α) → String → Option α
  | [], _ => none
  | (k, v) :: rest, key => if k = key then some v else alookup rest key

/-- `d[k] = v` on a Python dict: an existing key keeps its position and gets
the new value, a new key is appended (insertion order). -/
def dictSet {α : Type} : List (String × α) → String → α → List (String × α)
  | [], key, v => [(key, v)]
  | (k, w) :: rest, key, v =>
    if k = key then (key, v) :: rest else (k, w) :: dictSet rest key v

namespace MessageDeduplication

/-- `{message_hash: timestamp}` for one site. -/
abbrev SiteData := List (String × Int)

/-- `self.sent_messages : {site: {message_hash: timestamp}}`. -/
abbrev SentMessages := List (String × SiteData)

/-- `7 * 24 * 60 * 60` — the 7-day window used throughout `message_dedup.py`. -/
def sevenDaysSeconds : Int := 7 * 24 * 60 * 60

/-- The `timestamp > seven_days_ago` filter applied by `load_sent_messages`,
`is_duplicate` and `record_message` (`seven_days_ago = now - 604800`). -/
def stillValid (now : Int) (site_data : SiteData) : SiteData :=
  site_data.filter (fun p => decide (now - sevenDaysSeconds < p.2))

/-- `MessageDeduplication.is_duplicate(message, site)`: if the site is
present, drop its expired records, report whether the (fresh) records contain
the message hash, and store the cleaned map back; an unknown site is not a
duplicate and the state is untouched. Returns `(is_dup, new state)`. -/
def is_duplicate (hash : String → String) (now : Int) (sent : SentMessages)
    (message site : String) : Bool × SentMessages :=
  match alookup sent site with
  | some site_data =>
    ((stillValid now site_data).any (fun p => p.1 == hash message),
      dictSet sent site (stillValid now site_data))
  | none => (false, sent)

/-- `MessageDeduplication.record_message(message, site)`: ensure the site
exists (`{}` when absent), drop its expired records (`still_valid`), then
upsert `(hash(message), now)`. -/
def record_message (hash : String → String) (now : Int) (sent : SentMessages)
    (message site : String) : SentMessages :=
  dictSet sent site
    (dictSet (stillValid now ((alookup sent site).getD [])) (hash message) now)

/-- `MessageDeduplication.load_sent_messages`: per site, keep only records
younger than 7 days, and keep the site itself only if some record survives
(`if cleaned_site_data:`). -/
def load_sent_messages (now : Int) (data : SentMessages) : SentMessages :=
  (data.map (fun p => (p.1, stillValid now p.2))).filter (fun p => !p.2.isEmpty)

end MessageDeduplication

/-- A Python object as seen by the registry's duck-typing check: its attribute
names, each tagged with whether the attribute's value is callable. -/
abbrev SiteObj := List (String × Bool)

/-- Python's `hasattr(obj, attr)`. -/
def hasattr (obj : SiteObj) (attr : String) : Bool :=
  (alookup obj attr).isSome

/-- `required_attrs` from `Scheduler._load_site_module`. -/
def required_attrs : List String :=
  ["name", "check_updates", "description", "schedule", "display_name"]

/-- `is_site_config = all(hasattr(site_obj, attr) for attr in required_attrs)`
— the whole validation the registry performs on a site object. -/
def is_site_config (obj : SiteObj) : Bool :=
  required_attrs.all (fun attr => hasattr obj attr)

/-- `Scheduler._load_site_module` outcome for one module: `none` models a
module with no `site` attribute (or whose import raised, caught by the
`except` arms) — both return `False`. For a present `site` object the
duck-typing validation (`is_site_config`) must pass, and then the branch
executes `display_name = site_obj.display_name()`: calling a non-callable
attribute raises `TypeError`, which the trailing `except Exception` catches,
so the function returns `False` unless `display_name` is callable. (The
branch's only other calls cannot flip the result: `start_site_scheduling`
catches its own exceptions internally — a non-callable `schedule` leaves the
site loaded but untriggered — and `check_updates`/`name`/`description` are
not called at load time. The `self.site_configs[site_name] = site_obj`
assignment made before the `display_name()` call is a side effect not
captured by this boolean; the loaded-sites list, which gates scheduling, is
what `load_site_modules` below returns.) -/
def _load_site_module (module : Option SiteObj) : Bool :=
  match module with
  | none => false
  | some site_obj =>
    is_site_config site_obj && (alookup site_obj "display_name").getD false

/-- The plugin-directory loop of `Scheduler.load_site_modules`: skip a
directory whose name was already loaded, attempt `_load_site_module`,
append to `loaded_sites` (and mark the name seen) only on success. -/
def load_site_modules_go :
    List (String × Option SiteObj) → List String → List String → List String
  | [], loaded_sites, _ => loaded_sites.reverse
  | (site_name, module) :: rest, loaded_sites, loaded_site_names =>
    if site_name ∈ loaded_site_names then
      load_site_modules_go rest loaded_sites loaded_site_names
    else if _load_site_module module then
      load_site_modules_go rest (site_name :: loaded_sites) (site_name :: loaded_site_names)
    else
      load_site_modules_go rest loaded_sites loaded_site_names

/-- `Scheduler.load_site_modules` restricted to one source directory: the list
of site names that were successfully registered, in load order. -/
def load_site_modules (dirs : List (String × Option SiteObj)) : List String :=
  load_site_modules_go dirs [] []

/-- The parameter names of the shipped `SiteConfig.__init__`
(`sites/__init__.py`). There is no `check_updates_func` parameter. -/
def siteConfigInitParams : List String :=
  ["name", "fetch_func", "compare_func", "format_func", "description_func",
   "schedule_func", "display_name_func", "version", "dependencies", "author"]

/-- The `SiteConfig.__init__` parameters without a default value. -/
def siteConfigRequiredParams : List String :=
  ["name", "fetch_func", "compare_func", "format_func", "description_func",
   "schedule_func"]

/-- Python call binding for a pure-keyword call `SiteConfig(**kwargs)`:
it succeeds (no `TypeError`) iff every keyword is a declared parameter and
every parameter without a default is supplied. -/
def siteConfigCallBinds (kwargs : List String) : Bool :=
  kwargs.all (fun k => siteConfigInitParams.contains k) &&
    siteConfigRequiredParams.all (fun k => kwargs.contains k)

/-- The attributes a successfully constructed `SiteConfig` instance carries
(the assignments in `__init__`'s body), tagged with callability: the six
function-valued attributes are callable, the metadata is not. No
`check_updates` attribute is ever set. -/
def siteConfigInstanceAttrs : SiteObj :=
  [("name", false), ("fetch", true), ("compare", true), ("format", true),
   ("description", true), ("schedule", true), ("display_name", true),
   ("version", false), ("dependencies", false), ("author", false)]

/-- The keywords of the bundled example site's construction call
`SiteConfig(name=..., check_updates_func=..., description_func=...,
schedule_func=..., display_name_func=...)` in `sites/example/main.py`. -/
def exampleSiteKwargs : List String :=
  ["name", "check_updates_func", "description_func", "schedule_func",
   "display_name_func"]

/-- A JSON document (what `cache.py` persists for a site). -/
inductive Json : Type where
  | null : Json
  | bool (b : Bool) : Json
  | num (n : ℚ) : Json
  | str (s : String) : Json
  | arr (elems : List Json) : Json
  | obj (fields : List (String × Json)) : Json

/-- The cache directory: one stored JSON document per site name
(`{site_name}_subscription.json`). -/
abbrev CacheStore := List (String × Json)

/-- `cache.save_cache(site_name, data)`: write the document for the site and
return `True` (the `except` branch returning `False` is an I/O failure not
taken in the model). Returns `(result, new store)`. -/
def save_cache (store : CacheStore) (site_name : String) (data : Json) :
    Bool × CacheStore :=
  (true, dictSet store site_name data)

/-- `cache.load_cache(site_name)`: the stored document, or `None` when the
site's cache file does not exist. -/
def load_cache (store : CacheStore) (site_name : String) : Option Json :=
  alookup store site_name

/-- `Scheduler.get_site_name_by_display_name`:
`self.display_name_to_site_name.get(display_name, display_name)`. -/
def get_site_name_by_display_name (display_name_to_site_name : List (String × String))
    (display_name : String) : String :=
  (alookup display_name_to_site_name display_name).getD display_name

/-- The `display_name_to_site_name` table produced by loading the given
`(display_name, site_name)` pairs in order: `_load_site_module` runs
`self.display_name_to_site_name[display_name] = site_name` per loaded site. -/
def build_display_table (loaded : List (String × String)) : List (String × String) :=
  loaded.foldl (fun table p => dictSet table p.1 p.2) []

/-- The literal site value the `订阅全部` command subscribes
(`subscription_manager.subscribe(target_id, "全部", ...)` in `main.py`) —
the sentinel display name for "all sites". -/
def subscribe_all_target : String := "全部"

/-- The `{'success': ..., 'error': ..., 'messages': ...}` dict a site's
`check_updates()` returns. -/
structure CheckResult : Type where
  success : Bool
  error : String
  messages : List String

/-- Batches of `range(0, len(l), batch_size)` slices, fuelled by the list
length (structural, so it evaluates in the kernel). -/
def mkBatchesGo {α : Type} (batch_size : Nat) : Nat → List α → List (List α)
  | 0, _ => []
  | _, [] => []
  | fuel + 1, l => l.take batch_size :: mkBatchesGo batch_size fuel (l.drop batch_size)

/-- `subscribers[i:i + batch_size]` for `i in range(0, len(subscribers),
batch_size)`. A non-positive step makes Python's `range` raise, which the
outer `except` swallows with nothing sent — modelled as no batches. -/
def mkBatches {α : Type} (batch_size : Nat) (l : List α) : List (List α) :=
  if batch_size = 0 then [] else mkBatchesGo batch_size l.length l

/-- One subscriber's turn in the `_send_notifications` inner loop: `none`
when the subscriber is skipped (no stored session in
`subscription_manager.subscriber_sessions`, or a falsy one); otherwise
`some ok` where `ok = false` models the send raising — caught by the
per-subscriber `try/except`, which logs and continues either way. -/
def attempt_send (sessions : List (String × String)) (send_ok : String → Bool)
    (subscriber : String) : Option Bool :=
  match alookup sessions subscriber with
  | some unified_msg_origin =>
    if unified_msg_origin = "" then none else some (send_ok subscriber)
  | none => none

/-- `Scheduler._send_notifications(subscribers, message)`: nothing without a
context; otherwise walk the batches in order and, per subscriber, attempt the
send, isolating failures. The result records, in order, each attempted
subscriber and whether its send succeeded. -/
def _send_notifications (context_available : Bool) (batch_size : Nat)
    (sessions : List (String × String)) (send_ok : String → Bool)
    (subscribers : List String) : List (String × Bool) :=
  if context_available then
    ((mkBatches batch_size subscribers).map (fun batch =>
      batch.filterMap (fun s =>
        (attempt_send sessions send_ok s).map (fun ok => (s, ok))))).flatten
  else []

/-- Whether `_send_notifications` would actually reach the send call for a
subscriber: a stored, truthy `unified_msg_origin`. -/
def has_session (sessions : List (String × String)) (subscriber : String) : Bool :=
  match alookup sessions subscriber with
  | some unified_msg_origin => !(unified_msg_origin == "")
  | none => false

/-- `Scheduler.check_site_updates(site_name)`: return early for an
unregistered site, no subscribers, a non-dict result, `success=False`, or no
messages; otherwise fan every non-empty message out to the subscribers via
`_send_notifications`. The result lists every attempted delivery as
`(message, subscriber, send succeeded)`; note that the dedup store is not an
input — the code never consults it. -/
def check_site_updates (site_registered : Bool) (subscribers : List String)
    (result : Option CheckResult) (context_available : Bool) (batch_size : Nat)
    (sessions : List (String × String)) (send_ok : String → String → Bool) :
    List (String × String × Bool) :=
  if !site_registered then []
  else if subscribers.isEmpty then []
  else
    match result with
    | none => []
    | some r =>
      if !r.success then []
      else if r.messages.isEmpty then []
      else
        (r.messages.filter (fun m => !(m == ""))).flatMap (fun m =>
          (_send_notifications context_available batch_size sessions (send_ok m)
            subscribers).map (fun p => (m, p.1, p.2)))

/-- A concrete stand-in for the abstract content hash, used to instantiate
the dedup theorems at specific inputs. -/
def hashIdent : String → String := fun s => s

/-- A site object carrying all five required attributes whose `check_updates`
is a plain non-callable value; `description`, `schedule` and `display_name`
are callable (and `name`, as in the shipped `SiteConfig`, is a plain
string). -/
def non_callable_check_updates_site : SiteObj :=
  [("name", false), ("check_updates", false), ("description", true),
   ("schedule", true), ("display_name", true)]

/-- A site object satisfying the registry's duck-typing check, with callable
capabilities. -/
def okSiteObj : SiteObj :=
  [("name", false), ("check_updates", true), ("description", true),
   ("schedule", true), ("display_name", true)]

/-! ### Association-list lemmas -/

theorem alookup_dictSet_self {α : Type} (l : List (String × α)) (k : String) (v : α) :
    alookup (dictSet l k v) k = some v := by
  induction l with
  | nil => simp [dictSet, alookup]
  | cons a rest ih =>
    by_cases h : a.1 = k
    · simp [dictSet, h, alookup]
    · simp [dictSet, h, alookup, ih]

theorem alookup_dictSet_ne {α : Type} (l : List (String × α)) (k k' : String) (v : α)
    (h : k' ≠ k) : alookup (dictSet l k v) k' = alookup l k' := by
  have hne : ¬ k = k' := fun hh => h hh.symm
  induction l with
  | nil => simp [dictSet, alookup, hne]
  | cons a rest ih =>
    by_cases hk : a.1 = k
    · have hak : ¬ a.1 = k' := fun hh => hne (hk.symm.trans hh)
      simp [dictSet, hk, alookup, hne, hak]
    · simp [dictSet, hk, alookup, ih]

theorem mem_dictSet {α : Type} {p : String × α} {l : List (String × α)}
    {k : String} {v : α} (hp : p ∈ dictSet l k v) : p = (k, v) ∨ p ∈ l := by
  induction l with
  | nil => simpa [dictSet] using hp
  | cons a rest ih =>
    by_cases hk : a.1 = k
    · simp only [dictSet, hk, if_pos rfl] at hp
      rcases List.mem_cons.mp hp with h | h
      · exact Or.inl h
      · exact Or.inr (List.mem_cons_of_mem a h)
    · simp only [dictSet, hk, if_neg hk] at hp
      rcases List.mem_cons.mp hp with h | h
      · exact Or.inr (h ▸ List.mem_cons_self a rest)
      · rcases ih h with h' | h'
        · exact Or.inl h'
        · exact Or.inr (List.mem_cons_of_mem a h')

theorem self_mem_dictSet {α : Type} (l : List (String × α)) (k : String) (v : α) :
    (k, v) ∈ dictSet l k v := by
  induction l with
  | nil => simp [dictSet]
  | cons a rest ih =>
    by_cases hk : a.1 = k
    · simp [dictSet, hk]
    · simp only [dictSet, if_neg hk]
      exact List.mem_cons_of_mem a ih

theorem alookup_eq_none_iff {α : Type} {l : List (String × α)} {k : String} :
    alookup l k = none ↔ ∀ p ∈ l, p.1 ≠ k := by
  induction l with
  | nil => simp [alookup]
  | cons a rest ih =>
    constructor
    · intro h p hp
      by_cases hk : a.1 = k
      · simp [alookup, hk] at h
      · simp only [alookup, if_neg hk] at h
        rcases List.mem_cons.mp hp with h' | h'
        · exact h' ▸ hk
        · exact ih.mp h p h'
    · intro h
      have hk : a.1 ≠ k := h a (List.mem_cons_self a rest)
      simp only [alookup, if_neg hk]
      exact ih.mpr fun p hp => h p (List.mem_cons_of_mem a hp)

theorem mem_stillValid {now : Int} {site_data : MessageDeduplication.SiteData}
    {p : String × Int} :
    p ∈ MessageDeduplication.stillValid now site_data ↔
      p ∈ site_data ∧ now - MessageDeduplication.sevenDaysSeconds < p.2 := by
  simp [MessageDeduplication.stillValid, List.mem_filter]

theorem alookup_mem {α : Type} {l : List (String × α)} {k : String} {v : α}
    (h : alookup l k = some v) : (k, v) ∈ l := by
  induction l with
  | nil => simp [alookup] at h
  | cons a rest ih =>
    by_cases hk : a.1 = k
    · simp only [alookup, if_pos hk] at h
      have ha : a = (k, v) := by
        obtain ⟨a1, a2⟩ := a
        simp_all
      rw [← ha]
      exact List.mem_cons_self a rest
    · simp only [alookup, if_neg hk] at h
      exact List.mem_cons_of_mem a (ih h)

theorem mkBatchesGo_flatten {α : Type} (batch_size : Nat) (hk : 0 < batch_size) :
    ∀ (fuel : Nat) (l : List α), l.length ≤ fuel →
      (mkBatchesGo batch_size fuel l).flatten = l := by
  intro fuel
  induction fuel with
  | zero =>
    intro l hl
    have : l = [] := List.length_eq_zero.mp (Nat.le_zero.mp hl)
    subst this
    rfl
  | succ n ih =>
    intro l hl
    cases l with
    | nil => rfl
    | cons a t =>
      have hdl : ((a :: t).drop batch_size).length ≤ n := by
        rw [List.length_drop, List.length_cons]
        simp only [List.length_cons] at hl
        omega
      simp only [mkBatchesGo, List.flatten_cons]
      rw [ih ((a :: t).drop batch_size) hdl]
      exact List.take_append_drop batch_size (a :: t)

theorem mkBatches_flatten {α : Type} (batch_size : Nat) (hk : 0 < batch_size)
    (l : List α) : (mkBatches batch_size l).flatten = l := by
  unfold mkBatches
  rw [if_neg (Nat.pos_iff_ne_zero.mp hk)]
  exact mkBatchesGo_flatten batch_size hk l.length l le_rfl

theorem flatten_map_filterMap {α β : Type} (g : α → Option β) :
    ∀ chunks : List (List α),
      ((chunks.map (fun c => c.filterMap g)).flatten) = chunks.flatten.filterMap g := by
  intro chunks
  induction chunks with
  | nil => rfl
  | cons c rest ih =>
    rw [List.map_cons, List.flatten_cons, List.flatten_cons, List.filterMap_append, ih]

theorem filterMap_attempt (sessions : List (String × String)) (send_ok : String → Bool) :
    ∀ subs : List String,
      subs.filterMap (fun s => (attempt_send sessions send_ok s).map (fun ok => (s, ok)))
        = (subs.filter (has_session sessions)).map (fun s => (s, send_ok s)) := by
  intro subs
  induction subs with
  | nil => rfl
  | cons a t ih =>
    cases halo : alookup sessions a with
    | none =>
      have h1 : attempt_send sessions send_ok a = none := by simp [attempt_send, halo]
      have h2 : has_session sessions a = false := by simp [has_session, halo]
      simp [List.filterMap_cons, List.filter_cons, h1, h2, ih]
    | some origin =>
      by_cases ho : origin = ""
      · have h1 : attempt_send sessions send_ok a = none := by
          simp [attempt_send, halo, ho]
        have h2 : has_session sessions a = false := by simp [has_session, halo, ho]
        simp [List.filterMap_cons, List.filter_cons, h1, h2, ih]
      · have h1 : attempt_send sessions send_ok a = some (send_ok a) := by
          simp [attempt_send, halo, ho]
        have h2 : has_session sessions a = true := by simp [has_session, halo, ho]
        simp [List.filterMap_cons, List.filter_cons, h1, h2, ih]

theorem alookup_foldl_dictSet_of_ne (key : String) :
    ∀ (loaded acc : List (String × String)),
      (∀ p ∈ loaded, p.1 ≠ key) →
      alookup (loaded.foldl (fun table p => dictSet table p.1 p.2) acc) key
        = alookup acc key
  | [], _, _ => rfl
  | a :: rest, acc, h => by
    simp only [List.foldl_cons]
    rw [alookup_foldl_dictSet_of_ne key rest (dictSet acc a.1 a.2)
        (fun p hp => h p (List.mem_cons_of_mem a hp))]
    exact alookup_dictSet_ne acc a.1 key a.2 (h a (List.mem_cons_self a rest)).symm

/-- Claim C1 — refuted by the code (code bug): `check_site_updates` fans a
message out to every subscriber without ever consulting the dedup store, and
`MessageDeduplication` exposes no `check_and_record` at all (the global
`message_dedup` instance is imported by `main.py` but never called). At a
state where `"X"` is already recorded for site `"example"` within the 7-day
window, `is_duplicate` reports a duplicate, yet the delivery pipeline still
delivers `"X"` to subscriber `"u1"` — the claim says a duplicate is delivered
to no subscriber. -/
theorem dedup_bypassed_in_delivery :
    (MessageDeduplication.is_duplicate hashIdent 100 [("example", [("X", 0)])]
        "X" "example").1 = true
    ∧ check_site_updates true ["u1"] (some ⟨true, "", ["X"]⟩) true 50
        [("u1", "session1")] (fun _ _ => true) = [("X", "u1", true)] := by
  decide

/-- Claim C2: a site object built by the shipped `SiteConfig` class never
registers. The `__init__` keyword set has no `check_updates_func` and the
constructed instance carries no `check_updates` attribute, so the registry's
duck-typing validation fails and `_load_site_module` returns `False` for any
such site; moreover the bundled example site's construction call does not even
bind (`TypeError`: unexpected keyword `check_updates_func`, required
`fetch_func`/`compare_func`/`format_func` missing), so the example site can
never be registered. -/
theorem shipped_siteconfig_never_registers :
    siteConfigCallBinds exampleSiteKwargs = false
    ∧ siteConfigInitParams.contains "check_updates_func" = false
    ∧ hasattr siteConfigInstanceAttrs "check_updates" = false
    ∧ _load_site_module (some siteConfigInstanceAttrs) = false
    ∧ load_site_modules [("example", some siteConfigInstanceAttrs)] = [] := by
  decide

/-- Claim C4, counterexample: registration does not validate the callability
of `check_updates`. A site object carrying all five required attributes, with
`check_updates` a plain non-callable value but `display_name` (the one
attribute the load branch actually calls) callable, passes `is_site_config`
(`hasattr` only), survives the `display_name()` call, and is registered and
scheduled — the claim says a site with any non-callable capability is
rejected and excluded. -/
theorem callability_not_validated :
    is_site_config non_callable_check_updates_site = true
    ∧ load_site_modules [("bad", some non_callable_check_updates_site)] = ["bad"] := by
  decide

/-- Claim C4, amended: registration validates the PRESENCE of the five
required capabilities (`hasattr`), not their callability; the only
callability enforced at load time is `display_name`'s, and only incidentally
— the load branch calls `site_obj.display_name()` and the `TypeError` from a
non-callable is caught, turning the load into a failure. A module whose site
object fails the presence check or has a non-callable `display_name` returns
`False` from `_load_site_module` and is excluded from the loaded list, with
the loading outcome for every other module exactly as if the rejected module
were absent (loading and the process continue unaffected); callability of
`name`, `check_updates`, `description` and `schedule` is never checked. -/
theorem registration_presence_check (pre post : List (String × Option SiteObj))
    (site_name : String) (obj : SiteObj)
    (hbad : is_site_config obj = false ∨ alookup obj "display_name" = some false) :
    _load_site_module (some obj) = false
    ∧ load_site_modules (pre ++ (site_name, some obj) :: post)
      = load_site_modules (pre ++ post) := by
  have hload : _load_site_module (some obj) = false := by
    rcases hbad with h | h
    · simp [_load_site_module, h]
    · simp [_load_site_module, h]
  refine ⟨hload, ?_⟩
  unfold load_site_modules
  suffices hgen : ∀ (pre : List (String × Option SiteObj)) (acc seen : List String),
      load_site_modules_go (pre ++ (site_name, some obj) :: post) acc seen
        = load_site_modules_go (pre ++ post) acc seen from hgen pre [] []
  intro pre
  induction pre with
  | nil =>
    intro acc seen
    simp only [List.nil_append, load_site_modules_go]
    by_cases hseen : site_name ∈ seen
    · simp [hseen]
    · simp [hseen, hload]
  | cons a rest ih =>
    intro acc seen
    obtain ⟨a_name, a_mod⟩ := a
    simp only [List.cons_append, load_site_modules_go]
    by_cases hseen : a_name ∈ seen
    · simp [hseen, ih]
    · by_cases hload' : _load_site_module a_mod
      · simp [hseen, hload', ih]
      · simp [hseen, hload', ih]

/-- Witness for `registration_presence_check`: a site object with no
attributes fails the presence check; it is rejected, and dropping it from the
middle of a load sequence leaves the outcome for the surrounding sites
unchanged. -/
theorem registration_presence_check_witness :
    (is_site_config [] = false ∨ alookup ([] : SiteObj) "display_name" = some false)
    ∧ _load_site_module (some ([] : SiteObj)) = false
    ∧ load_site_modules
        ([("a", some okSiteObj)] ++ ("bad", some ([] : SiteObj)) :: [("b", some okSiteObj)])
      = load_site_modules ([("a", some okSiteObj)] ++ [("b", some okSiteObj)]) :=
  ⟨by decide,
    registration_presence_check [("a", some okSiteObj)] [("b", some okSiteObj)]
      "bad" [] (by decide)⟩

/-- Claim C8: for every prior cache state, site and JSON-serializable blob,
`save_cache(site, blob)` returns `True` and a subsequent `load_cache(site)`
returns the very blob that was saved. -/
theorem cache_round_trip (store : CacheStore) (site : String) (blob : Json) :
    (save_cache store site blob).1 = true
    ∧ load_cache (save_cache store site blob).2 site = some blob :=
  ⟨rfl, alookup_dictSet_self store site blob⟩

/-- Claim C9, counterexample: the display-name table never maps the sentinel
to the `"all"` id. With no sites loaded (the table the claim says is
irrelevant), `get_site_name_by_display_name` resolves the sentinel display
name `"全部"` to itself via the `.get(display_name, display_name)` default —
not to `"all"`. -/
theorem sentinel_not_mapped_to_all :
    ¬ get_site_name_by_display_name (build_display_table []) subscribe_all_target
        = "all" := by
  decide

/-- Claim C9, amended: the display-name → id lookup is a separate table
(populated only with loaded sites' display names); the sentinel display name
`"全部"` for "all sites" is never inserted by loading, so whenever no loaded
site uses it as its own display name it resolves to itself, `"全部"` — which
is exactly the sentinel id the subscribe-all command stores — regardless of
which sites were loaded and in what order. It never resolves to `"all"`. -/
theorem sentinel_resolves_to_itself (loaded : List (String × String))
    (h : ∀ p ∈ loaded, p.1 ≠ subscribe_all_target) :
    get_site_name_by_display_name (build_display_table loaded) subscribe_all_target
      = subscribe_all_target := by
  unfold get_site_name_by_display_name build_display_table
  rw [alookup_foldl_dictSet_of_ne subscribe_all_target loaded [] h]
  rfl

/-- Witness for `sentinel_resolves_to_itself` with the example site loaded. -/
theorem sentinel_resolves_to_itself_witness :
    get_site_name_by_display_name (build_display_table [("示例网站", "example")])
      subscribe_all_target = subscribe_all_target :=
  sentinel_resolves_to_itself [("示例网站", "example")] (by decide)

/-- Claim C5: for every site and message `m` (with `m`'s hash not yet
recorded for that site), `is_duplicate` is false before any record, true
immediately after `record_message(m, site)`, and false again at any later
query time once the record's age exceeds 604800 seconds. -/
theorem dedup_window (hash : String → String)
    (sent : MessageDeduplication.SentMessages) (m site : String) (t tLate : Int)
    (hfresh : ∀ site_data, alookup sent site = some site_data →
      alookup site_data (hash m) = none)
    (hlate : tLate - t > 604800) :
    (MessageDeduplication.is_duplicate hash t sent m site).1 = false
    ∧ (MessageDeduplication.is_duplicate hash t
        (MessageDeduplication.record_message hash t sent m site) m site).1 = true
    ∧ (MessageDeduplication.is_duplicate hash tLate
        (MessageDeduplication.record_message hash t sent m site) m site).1 = false := by
  have hS : MessageDeduplication.sevenDaysSeconds = 604800 := by decide
  have hrecl : alookup (MessageDeduplication.record_message hash t sent m site) site
      = some (dictSet (MessageDeduplication.stillValid t ((alookup sent site).getD []))
          (hash m) t) := by
    unfold MessageDeduplication.record_message
    exact alookup_dictSet_self _ _ _
  have hsd0 : ∀ q ∈ (alookup sent site).getD [], q.1 ≠ hash m := by
    cases hs : alookup sent site with
    | none => simp
    | some sd => simpa using alookup_eq_none_iff.mp (hfresh sd hs)
  refine ⟨?_, ?_, ?_⟩
  · unfold MessageDeduplication.is_duplicate
    cases hs : alookup sent site with
    | none => rfl
    | some sd =>
      dsimp only
      apply List.any_eq_false.mpr
      intro p hp
      have hne := alookup_eq_none_iff.mp (hfresh sd hs) p (mem_stillValid.mp hp).1
      simp [hne]
  · unfold MessageDeduplication.is_duplicate
    rw [hrecl]
    dsimp only
    apply List.any_eq_true.mpr
    refine ⟨(hash m, t), mem_stillValid.mpr ⟨self_mem_dictSet _ _ _, ?_⟩, by simp⟩
    rw [hS]
    omega
  · unfold MessageDeduplication.is_duplicate
    rw [hrecl]
    dsimp only
    apply List.any_eq_false.mpr
    intro p hp
    obtain ⟨hpmem, hpfresh⟩ := mem_stillValid.mp hp
    rcases mem_dictSet hpmem with hpe | hpold
    · exfalso
      rw [hpe, hS] at hpfresh
      simp only at hpfresh
      omega
    · have := hsd0 p (mem_stillValid.mp hpold).1
      simp [this]

/-- Witness for `dedup_window`: site `"siteA"`, message `"X"`, empty prior
state; recorded at time 0, queried again at time 700000 (> 604800). -/
theorem dedup_window_witness :
    ((700000 : Int) - 0 > 604800)
    ∧ (MessageDeduplication.is_duplicate hashIdent 0 [] "X" "siteA").1 = false
    ∧ (MessageDeduplication.is_duplicate hashIdent 0
        (MessageDeduplication.record_message hashIdent 0 [] "X" "siteA")
        "X" "siteA").1 = true
    ∧ (MessageDeduplication.is_duplicate hashIdent 700000
        (MessageDeduplication.record_message hashIdent 0 [] "X" "siteA")
        "X" "siteA").1 = false :=
  ⟨by decide,
    dedup_window hashIdent [] "X" "siteA" 0 700000
      (fun sd h => by simp [alookup] at h) (by decide)⟩

/-- Claim C6: `record_message` for one site is invisible to every other
site's dedup queries — for any other site `B`, any message `X` and any query
time, `is_duplicate(X, B)` returns exactly what it returned before the
record. -/
theorem dedup_per_site_frame (hash : String → String) (now now' : Int)
    (sent : MessageDeduplication.SentMessages) (X m A B : String) (h : B ≠ A) :
    (MessageDeduplication.is_duplicate hash now'
        (MessageDeduplication.record_message hash now sent m A) X B).1
      = (MessageDeduplication.is_duplicate hash now' sent X B).1 := by
  have hl : alookup (MessageDeduplication.record_message hash now sent m A) B
      = alookup sent B := by
    unfold MessageDeduplication.record_message
    exact alookup_dictSet_ne _ _ _ _ h
  unfold MessageDeduplication.is_duplicate
  rw [hl]
  cases alookup sent B <;> rfl

/-- Witness for `dedup_per_site_frame`: recording `"X"` for `"siteA"` leaves
`is_duplicate("X", "siteB")` unchanged (both sides false on the empty prior
state). -/
theorem dedup_per_site_frame_witness :
    ("siteB" ≠ "siteA")
    ∧ (MessageDeduplication.is_duplicate hashIdent 5
        (MessageDeduplication.record_message hashIdent 5 [] "X" "siteA")
        "X" "siteB").1
      = (MessageDeduplication.is_duplicate hashIdent 5 [] "X" "siteB").1 :=
  ⟨by decide, dedup_per_site_frame hashIdent 5 5 [] "X" "X" "siteA" "siteB" (by decide)⟩

/-- Claim C7: after each dedup-store operation — loading the persisted map,
`is_duplicate`, `record_message` — every record retained for the touched site
(every site, for load) has age strictly below 604800 seconds: expired records
are evicted on load before first use, on read, and on write. -/
theorem dedup_retention_invariant (hash : String → String) (now : Int)
    (data sent : MessageDeduplication.SentMessages) (m site : String) :
    (∀ s sd, alookup (MessageDeduplication.load_sent_messages now data) s = some sd →
      ∀ p ∈ sd, now - p.2 < 604800)
    ∧ (∀ sd, alookup (MessageDeduplication.is_duplicate hash now sent m site).2 site
        = some sd → ∀ p ∈ sd, now - p.2 < 604800)
    ∧ (∀ sd, alookup (MessageDeduplication.record_message hash now sent m site) site
        = some sd → ∀ p ∈ sd, now - p.2 < 604800) := by
  have hS : MessageDeduplication.sevenDaysSeconds = 604800 := by decide
  refine ⟨?_, ?_, ?_⟩
  · intro s sd hsd p hp
    have hmem := alookup_mem hsd
    unfold MessageDeduplication.load_sent_messages at hmem
    obtain ⟨hmap, _⟩ := List.mem_filter.mp hmem
    obtain ⟨q, _, hq⟩ := List.mem_map.mp hmap
    have hsd' : sd = MessageDeduplication.stillValid now q.2 := congrArg Prod.snd hq.symm
    have := (mem_stillValid.mp (hsd' ▸ hp)).2
    rw [hS] at this
    omega
  · intro sd hsd p hp
    unfold MessageDeduplication.is_duplicate at hsd
    cases hs : alookup sent site with
    | none => rw [hs] at hsd; dsimp only at hsd; simp [hs] at hsd
    | some sd0 =>
      rw [hs] at hsd
      dsimp only at hsd
      rw [alookup_dictSet_self] at hsd
      have hsd' : sd = MessageDeduplication.stillValid now sd0 := by
        injection hsd with h'; exact h'.symm
      have := (mem_stillValid.mp (hsd' ▸ hp)).2
      rw [hS] at this
      omega
  · intro sd hsd p hp
    unfold MessageDeduplication.record_message at hsd
    rw [alookup_dictSet_self] at hsd
    have hsd' : sd = dictSet (MessageDeduplication.stillValid now
        ((alookup sent site).getD [])) (hash m) now := by
      injection hsd with h'; exact h'.symm
    rcases mem_dictSet (hsd' ▸ hp) with hpe | hpold
    · rw [hpe]
      simp only
      omega
    · have := (mem_stillValid.mp hpold).2
      rw [hS] at this
      omega

/-- Witness for `dedup_retention_invariant` (load part): loading a map with
one fresh record (age 500000s) and one stale record (age ≈ now) keeps exactly
the fresh one, whose age is inside the window. -/
theorem dedup_retention_invariant_witness :
    alookup (MessageDeduplication.load_sent_messages 1000000
        [("siteA", [("h1", 500000), ("h2", 1)])]) "siteA"
      = some [("h1", (500000 : Int))]
    ∧ (("h1", (500000 : Int)) ∈ [("h1", (500000 : Int))])
    ∧ ((1000000 : Int) - 500000 < 604800) :=
  ⟨by decide, by decide,
    (dedup_retention_invariant hashIdent 1000000
        [("siteA", [("h1", 500000), ("h2", 1)])] [] "m" "s").1 "siteA"
      [("h1", 500000)] (by decide) ("h1", 500000) (by decide)⟩

/-- Claim C10: during fan-out, every subscriber with a stored, truthy session
is attempted, in order, and each attempt's outcome is that subscriber's own
send result — whatever sends fail for other subscribers in the same batch or
in earlier batches (the per-subscriber `try/except` logs and continues). -/
theorem fanout_failure_isolated (batch_size : Nat) (sessions : List (String × String))
    (send_ok : String → Bool) (subscribers : List String) (h : 0 < batch_size) :
    _send_notifications true batch_size sessions send_ok subscribers
      = (subscribers.filter (has_session sessions)).map (fun s => (s, send_ok s)) := by
  unfold _send_notifications
  rw [if_pos rfl, flatten_map_filterMap, mkBatches_flatten batch_size h,
    filterMap_attempt]

/-- Witness for `fanout_failure_isolated`: three subscribers in batches of
two; the middle subscriber's send fails, the remaining ones (same batch and
next batch) are still attempted and succeed. -/
theorem fanout_failure_isolated_witness :
    (0 < 2)
    ∧ _send_notifications true 2 [("u1", "s1"), ("u2", "s2"), ("u3", "s3")]
        (fun s => !(s == "u2")) ["u1", "u2", "u3"]
      = [("u1", true), ("u2", false), ("u3", true)] :=
  ⟨by decide,
    (fanout_failure_isolated 2 [("u1", "s1"), ("u2", "s2"), ("u3", "s3")]
        (fun s => !(s == "u2")) ["u1", "u2", "u3"] (by decide)).trans (by decide)⟩

end Spider
